import Mathlib

/-!
Verification development for the sentiment-API comparison program
(`compare.py`).  The program reads a tab-separated evaluation corpus,
sends every document to a set of sentiment analyzers, scores each
analyzer's output against the document's gold label, and reports
per-analyzer accuracy and weighted error rate.

The embedding below follows `compare.py` function by function:
`read_evaluation_data`, `process_one_doc` (its per-analyzer scoring
deltas), `get_max_weighted_errors`, and `evaluate`.
-/

namespace SentimentEval

/-- Python `str.strip()` on the underlying character list: drop leading and
trailing whitespace. -/
def pyStripList (cs : List Char) : List Char :=
  ((cs.dropWhile Char.isWhitespace).reverse.dropWhile Char.isWhitespace).reverse

/-- Python `line.strip()`. -/
def pyStrip (s : String) : String :=
  String.mk (pyStripList s.toList)

/-- Python `line.split('\t')` on the underlying character list: split at every
tab character.  `split` on the empty string yields `[""]`. -/
def splitTabList : List Char → List (List Char)
  | [] => [[]]
  | c :: cs =>
    if c = '\t' then [] :: splitTabList cs
    else
      match splitTabList cs with
      | [] => [[c]]
      | p :: ps => (c :: p) :: ps

/-- Python `line.split('\t')`. -/
def pySplitTab (s : String) : List String :=
  (splitTabList s.toList).map String.mk

/-- One iteration of the loop body of `read_evaluation_data` (compare.py,
lines 67-78): a blank line is skipped (`none`); a line with exactly one tab
is unpacked into `document, key = line.split('\t')` with both parts
stripped; any other line hits the `ValueError` branch and the whole line is
stored, stripped, with no key. -/
def parseLine (line : String) : Option (String × Option String) :=
  if pyStrip line = "" then none
  else
    match pySplitTab line with
    | [document, key] => some (pyStrip document, some (pyStrip key))
    | _ => some (pyStrip line, none)

/-- `read_evaluation_data` (compare.py, lines 58-79): document ids are
assigned consecutively from 0 over the non-blank lines; the first component
models `doc_id2doc`, the second `doc_id2key` (only the lines that carried a
key). -/
def readEvaluationData (lines : List String) :
    List (Nat × String) × List (Nat × String) :=
  let parsed := lines.filterMap parseLine
  (parsed.enum.map (fun ip => (ip.1, ip.2.1)),
   parsed.enum.filterMap (fun ip => ip.2.2.map (fun k => (ip.1, k))))

/-- Modelled from the spec: the adapter classes and the `Thr` wrapper are not
under `src/`.  Per the spec, an adapter outcome is either `Success(label)`
with a string label, or `Failure(reason)`; in `Thr.outputs` a failure is
recorded as a tuple whose first element is falsy, which `process_one_doc`
detects with `isinstance(output, tuple) and not output[0]`. -/
inductive AdapterOutput where
  | failure
  | success (label : String)
deriving DecidableEq

/-- Lines 158-159 of `process_one_doc`: a failure outcome is replaced by the
literal string `'Error'`; a success contributes its label. -/
def outputCell : AdapterOutput → String
  | .failure => "Error"
  | .success label => label

/-- Hit contribution of one analyzer output for one document
(`process_one_doc`, lines 160-161): Python `output == key` is false when the
key is `None` and is string equality otherwise. -/
def hitDelta (output : String) (key : Option String) : Nat :=
  if key = some output then 1 else 0

/-- Weighted-error contribution of one analyzer output for one document
(`process_one_doc`, lines 160-166): nothing on a hit, nothing on `'Error'`,
weight 1 when the key or the output is `'0'` (Python `key == '0'` is false
when the key is `None`), weight 2 otherwise. -/
def errDelta (output : String) (key : Option String) : Nat :=
  if key = some output then 0
  else if output = "Error" then 0
  else if key = some "0" ∨ output = "0" then 1
  else 2

/-- `result_list` of `process_one_doc` (line 169): one cell per registered
analyzer, in registration order. -/
def docCells (analyzers : List String) (run : String → String → AdapterOutput)
    (text : String) : List String :=
  analyzers.map (fun a => outputCell (run a text))

/-- The per-document hit count of analyzer `a` (the `hits` Counter built by
`process_one_doc` for one document). -/
def docHit (run : String → String → AdapterOutput) (text : String)
    (key : Option String) (a : String) : Nat :=
  hitDelta (outputCell (run a text)) key

/-- The per-document weighted-error sum of analyzer `a` (the `errors` Counter
built by `process_one_doc` for one document). -/
def docErr (run : String → String → AdapterOutput) (text : String)
    (key : Option String) (a : String) : Nat :=
  errDelta (outputCell (run a text)) key

/-- The contribution of one gold key to `get_max_weighted_errors`
(compare.py, lines 178-182): 1 for a neutral key, 2 for anything else. -/
def keyWeight (k : String) : Nat :=
  if k = "0" then 1 else 2

/-- `get_max_weighted_errors` (compare.py, lines 174-183): sum of the key
weights over all entries of `doc_id2key`. -/
def maxWeightedErrors (doc_id2key : List (Nat × String)) : Nat :=
  (doc_id2key.map (fun p => keyWeight p.2)).sum

/-- Python `sorted(doc_id2text.items())` (line 199): the document list in
ascending document-id order. -/
def sortedDocs (doc_id2text : List (Nat × String)) : List (Nat × String) :=
  List.insertionSort (fun p q => p.1 ≤ q.1) doc_id2text

/-- `total_hits` for analyzer `a` after the document loop of `evaluate`
(lines 199-203): the sum of the per-document hit counts, with the document's
key looked up in `doc_id2key` (line 200). -/
def totalHits (run : String → String → AdapterOutput)
    (doc_id2text doc_id2key : List (Nat × String)) (a : String) : Nat :=
  ((sortedDocs doc_id2text).map
    (fun d => docHit run d.2 (doc_id2key.lookup d.1) a)).sum

/-- `total_errors` for analyzer `a` after the document loop of `evaluate`
(lines 199-205). -/
def totalErrors (run : String → String → AdapterOutput)
    (doc_id2text doc_id2key : List (Nat × String)) (a : String) : Nat :=
  ((sortedDocs doc_id2text).map
    (fun d => docErr run d.2 (doc_id2key.lookup d.1) a)).sum

/-- One row written to `results.csv` by `evaluate` (line 206):
`[doc_id, text, key] + results`, where a `None` key prints as an empty cell
and `results` is the per-analyzer cell list in registration order. -/
structure Row where
  docId : Nat
  text : String
  gold : Option String
  cells : List String
deriving DecidableEq

/-- The rows written by the document loop of `evaluate` (lines 199-206), in
the order they are written: one per document of `doc_id2text`, iterated in
ascending document-id order. -/
def outputRows (analyzers : List String) (run : String → String → AdapterOutput)
    (doc_id2text doc_id2key : List (Nat × String)) : List Row :=
  (sortedDocs doc_id2text).map
    (fun d => ⟨d.1, d.2, doc_id2key.lookup d.1, docCells analyzers run d.2⟩)

/-- The exception `evaluate` dies with on degenerate input: Python raises an
ordinary `ZeroDivisionError` from `total_hits.get(name, 0.0)/num_docs` or
`total_errors.get(name, 0.0)/max_errors`; no dedicated error type exists in
the program. -/
inductive PyError where
  | zeroDivisionError
deriving DecidableEq

/-- The summary part of `evaluate` (compare.py, lines 208-216): per-analyzer
`accuracy` and `error_rate` association lists in registration order.  When at
least one analyzer is registered and `num_docs` or `max_errors` is zero, the
first division raises `ZeroDivisionError` (floats are embedded as `ℚ`; the
divisions are exact). -/
def evaluate (analyzers : List String) (run : String → String → AdapterOutput)
    (doc_id2text doc_id2key : List (Nat × String)) :
    Except PyError (List (String × ℚ) × List (String × ℚ)) :=
  if analyzers = [] ∨
      (doc_id2text.length ≠ 0 ∧ maxWeightedErrors doc_id2key ≠ 0) then
    .ok
      (analyzers.map (fun a =>
        (a, (totalHits run doc_id2text doc_id2key a : ℚ) /
            (doc_id2text.length : ℚ))),
       analyzers.map (fun a =>
        (a, (totalErrors run doc_id2text doc_id2key a : ℚ) /
            (maxWeightedErrors doc_id2key : ℚ))))
  else
    .error .zeroDivisionError

/-! Helper lemmas -/

/-- Looking up a key of an association list built by pairing each element of
`l` with its image under `f` returns the image. -/
lemma lookup_map_pair {α β : Type*} [BEq α] [LawfulBEq α] (f : α → β) :
    ∀ (l : List α) (a : α), a ∈ l →
      (l.map (fun b => (b, f b))).lookup a = some (f a) := by
  intro l
  induction l with
  | nil => intro a ha; cases ha
  | cons b bs ih =>
    intro a ha
    by_cases hab : a = b
    · subst hab
      simp [List.lookup]
    · have : a ∈ bs := by
        cases ha with
        | head => exact absurd rfl hab
        | tail _ h => exact h
      simpa [List.lookup, beq_false_of_ne hab] using ih a this

/-- Conversely, a successful lookup in such an association list can only
return the image of the key. -/
lemma eq_of_lookup_map_pair {α β : Type*} [BEq α] [LawfulBEq α] (f : α → β) :
    ∀ (l : List α) (a : α) (x : β),
      (l.map (fun b => (b, f b))).lookup a = some x → x = f a := by
  intro l
  induction l with
  | nil => intro a x hx; simp [List.lookup] at hx
  | cons b bs ih =>
    intro a x hx
    by_cases hab : a = b
    · subst hab
      simp [List.lookup] at hx
      exact hx.symm
    · rw [List.map_cons, List.lookup, beq_false_of_ne hab] at hx
      exact ih a x hx

/-- A miss never weighs more than the weight its document's gold key
contributes to `get_max_weighted_errors`. -/
lemma errDelta_le_keyWeight (out k : String) :
    errDelta out (some k) ≤ keyWeight k := by
  unfold errDelta keyWeight
  split_ifs <;> simp_all

/-- Summing any per-document quantity that is bounded by the key weight of
the document's gold key is bounded by `get_max_weighted_errors`, provided
the document map and the key map carry the same distinct ids in the same
order. -/
lemma sum_le_maxWeightedErrors (f : (Nat × String) → Option String → Nat)
    (hf : ∀ d k, f d (some k) ≤ keyWeight k) :
    ∀ docs keys : List (Nat × String),
      docs.map Prod.fst = keys.map Prod.fst →
      (docs.map Prod.fst).Nodup →
      (docs.map (fun d => f d (keys.lookup d.1))).sum ≤ maxWeightedErrors keys := by
  intro docs
  induction docs with
  | nil =>
    intro keys hlab _
    have hk : keys = [] := by
      have := List.map_eq_nil_iff.mp hlab.symm
      exact this
    subst hk
    simp [maxWeightedErrors]
  | cons d ds ih =>
    intro keys hlab hnd
    cases keys with
    | nil => simp at hlab
    | cons k ks =>
      obtain ⟨k1, k2⟩ := k
      simp only [List.map_cons, List.cons.injEq] at hlab
      obtain ⟨hid, htail⟩ := hlab
      have hnd' : d.1 ∉ ds.map Prod.fst ∧ (ds.map Prod.fst).Nodup := by
        simpa [List.nodup_cons] using hnd
      have hhead : ((k1, k2) :: ks).lookup d.1 = some k2 := by
        simp [List.lookup, hid]
      have hrest : ds.map (fun d' => f d' (((k1, k2) :: ks).lookup d'.1)) =
          ds.map (fun d' => f d' (ks.lookup d'.1)) := by
        apply List.map_congr_left
        intro d' hd'
        have hne : d'.1 ≠ k1 := by
          intro h
          exact hnd'.1 (by
            have : d'.1 ∈ ds.map Prod.fst := List.mem_map_of_mem Prod.fst hd'
            rwa [h, ← hid] at this)
        rw [List.lookup, beq_false_of_ne hne]
      have hmax : maxWeightedErrors ((k1, k2) :: ks) =
          keyWeight k2 + maxWeightedErrors ks := by
        simp [maxWeightedErrors]
      rw [List.map_cons, List.sum_cons, hhead, hrest, hmax]
      exact Nat.add_le_add (hf d k2) (ih ks htail hnd'.2)

/-- The document loop iterates a permutation of `doc_id2text`. -/
lemma sortedDocs_perm (docs : List (Nat × String)) : (sortedDocs docs).Perm docs := by
  unfold sortedDocs
  exact List.perm_insertionSort _ _

/-- `total_errors[a]` is bounded by `get_max_weighted_errors` whenever every
document has a gold key (same distinct ids in the two maps). -/
lemma totalErrors_le_maxWeightedErrors
    (run : String → String → AdapterOutput)
    (docs keys : List (Nat × String)) (a : String)
    (hlab : docs.map Prod.fst = keys.map Prod.fst)
    (hnd : (docs.map Prod.fst).Nodup) :
    totalErrors run docs keys a ≤ maxWeightedErrors keys := by
  unfold totalErrors
  rw [((sortedDocs_perm docs).map
    (fun d => docErr run d.2 (keys.lookup d.1) a)).sum_eq]
  exact sum_le_maxWeightedErrors (fun d o => docErr run d.2 o a)
    (fun d k => errDelta_le_keyWeight _ _) docs keys hlab hnd

/-- Each document contributes at most one hit per analyzer, so
`total_hits[a]` is bounded by the number of documents. -/
lemma totalHits_le_length (run : String → String → AdapterOutput)
    (docs keys : List (Nat × String)) (a : String) :
    totalHits run docs keys a ≤ docs.length := by
  unfold totalHits
  have h1 : ∀ x ∈ (sortedDocs docs).map
      (fun d => docHit run d.2 (keys.lookup d.1) a), x ≤ 1 := by
    intro x hx
    obtain ⟨d, _, rfl⟩ := List.mem_map.mp hx
    unfold docHit hitDelta
    split_ifs <;> omega
  have h2 := List.sum_le_card_nsmul _ 1 h1
  simpa [smul_eq_mul, (sortedDocs_perm docs).length_eq] using h2

/-! Claim theorems -/

/-- C1: the claim fails on the code.  For a document whose gold label is
absent, no hit can be counted, and the outcome is recorded in the output
row, but `process_one_doc` still adds a weighted error for every successful
outcome (weight 2 for a non-neutral label, weight 1 for the neutral label),
because the `elif output != 'Error'` branch does not test whether the key is
present.  Evaluated at a concrete unlabeled document. -/
theorem unlabeledDoc_adds_weighted_error :
    docHit (fun _ _ => AdapterOutput.success "+") "some text" none "stub" = 0 ∧
    docErr (fun _ _ => AdapterOutput.success "+") "some text" none "stub" = 2 ∧
    docErr (fun _ _ => AdapterOutput.success "0") "some text" none "stub" = 1 ∧
    outputRows ["stub"] (fun _ _ => AdapterOutput.success "+")
      [(0, "some text")] [] = [⟨0, "some text", none, ["+"]⟩] := by
  decide

/-- C3: the claim fails on the code.  With at least one registered analyzer,
a zero document count (first input) or a zero maximum weighted-error sum
(second input, one unlabeled document) makes `evaluate` die with Python's
ordinary `ZeroDivisionError`; no dedicated `DegenerateInputError` exists
anywhere in the program. -/
theorem degenerate_input_raises_zeroDivisionError :
    evaluate ["stub"] (fun _ _ => AdapterOutput.success "+") [] [] =
      .error .zeroDivisionError ∧
    evaluate ["stub"] (fun _ _ => AdapterOutput.success "+") [(0, "x")] [] =
      .error .zeroDivisionError := by
  constructor <;> simp [evaluate, maxWeightedErrors]

/-- C4: for a successful outcome whose label differs from the present gold
label (and is not the reserved `'Error'` marker), the recorded miss weight
is 1 exactly when the gold label or the predicted label is the neutral
`'0'`, and 2 exactly otherwise. -/
theorem miss_weight_law (label g : String) (hmiss : label ≠ g)
    (hok : label ≠ "Error") :
    (errDelta label (some g) = 1 ↔ (g = "0" ∨ label = "0")) ∧
    (errDelta label (some g) = 2 ↔ ¬(g = "0" ∨ label = "0")) := by
  unfold errDelta
  rw [if_neg (by simpa using fun h : g = label => hmiss h.symm), if_neg hok]
  by_cases h : g = "0" ∨ label = "0"
  · rw [if_pos (by simpa using h)]
    simp [h]
  · rw [if_neg (by simpa using h)]
    simp [h]

/-- Witness for `miss_weight_law` at the confidently wrong pair
`(label, gold) = (+, -)`. -/
theorem miss_weight_law_witness :
    ("+" : String) ≠ "-" ∧ ("+" : String) ≠ "Error" ∧
    ((errDelta "+" (some "-") = 1 ↔ (("-" : String) = "0" ∨ ("+" : String) = "0")) ∧
     (errDelta "+" (some "-") = 2 ↔ ¬(("-" : String) = "0" ∨ ("+" : String) = "0"))) :=
  ⟨by decide, by decide, miss_weight_law "+" "-" (by decide) (by decide)⟩

/-- C5: a failure outcome is rendered as the literal `'Error'` cell and
contributes neither a hit nor a weighted error, for any gold key that is not
itself the (reserved) literal string `'Error'`. -/
theorem failure_outcome_scores_error (key : Option String)
    (hk : key ≠ some "Error") :
    outputCell .failure = "Error" ∧
    hitDelta (outputCell .failure) key = 0 ∧
    errDelta (outputCell .failure) key = 0 := by
  refine ⟨rfl, ?_, ?_⟩
  · unfold outputCell hitDelta
    rw [if_neg hk]
  · unfold outputCell errDelta
    rcases Decidable.em (key = some "Error") with h | h
    · exact absurd h hk
    · rw [if_neg h, if_pos rfl]

/-- Witness for `failure_outcome_scores_error` at the gold key `+`. -/
theorem failure_outcome_scores_error_witness :
    (some "+" : Option String) ≠ some "Error" ∧
    (outputCell .failure = "Error" ∧
     hitDelta (outputCell .failure) (some "+") = 0 ∧
     errDelta (outputCell .failure) (some "+") = 0) :=
  ⟨by decide, failure_outcome_scores_error (some "+") (by decide)⟩

/-- C8: the three-document scenario.  Parsing the corpus yields gold labels
`+`, `-`, `0`; a single always-positive analyzer scores 1 hit, a weight-2
miss on the negative-gold document, a weight-1 miss on the neutral-gold
document, a maximum weighted-error sum of 5, accuracy 1/3 and error rate
3/5. -/
theorem scenario_always_positive_three_docs :
    readEvaluationData ["great product\t+", "terrible\t-", "it\x27s ok\t0"] =
      ([(0, "great product"), (1, "terrible"), (2, "it\x27s ok")],
       [(0, "+"), (1, "-"), (2, "0")]) ∧
    docErr (fun _ _ => AdapterOutput.success "+") "terrible" (some "-") "stub" = 2 ∧
    docErr (fun _ _ => AdapterOutput.success "+") "it\x27s ok" (some "0") "stub" = 1 ∧
    totalHits (fun _ _ => AdapterOutput.success "+")
      [(0, "great product"), (1, "terrible"), (2, "it\x27s ok")]
      [(0, "+"), (1, "-"), (2, "0")] "stub" = 1 ∧
    totalErrors (fun _ _ => AdapterOutput.success "+")
      [(0, "great product"), (1, "terrible"), (2, "it\x27s ok")]
      [(0, "+"), (1, "-"), (2, "0")] "stub" = 3 ∧
    maxWeightedErrors [(0, "+"), (1, "-"), (2, "0")] = 5 ∧
    evaluate ["stub"] (fun _ _ => AdapterOutput.success "+")
      [(0, "great product"), (1, "terrible"), (2, "it\x27s ok")]
      [(0, "+"), (1, "-"), (2, "0")] =
      .ok ([("stub", 1/3)], [("stub", 3/5)]) := by
  refine ⟨by decide, by decide, by decide, by decide, by decide, by decide, ?_⟩
  have h1 : totalHits (fun _ _ => AdapterOutput.success "+")
      [(0, "great product"), (1, "terrible"), (2, "it\x27s ok")]
      [(0, "+"), (1, "-"), (2, "0")] "stub" = 1 := by decide
  have h2 : totalErrors (fun _ _ => AdapterOutput.success "+")
      [(0, "great product"), (1, "terrible"), (2, "it\x27s ok")]
      [(0, "+"), (1, "-"), (2, "0")] "stub" = 3 := by decide
  have h3 : maxWeightedErrors [(0, "+"), (1, "-"), (2, "0")] = 5 := by decide
  simp [evaluate, h1, h2, h3]

/-- C2 counterexample: a non-degenerate input (2 documents, maximum
weighted-error sum 1) on which the finalized error rate is 3, far outside
`[0,1]`.  The unlabeled second document contributes weight 2 to the
weighted-error sum (the C1 divergence) while contributing nothing to the
normalizing maximum. -/
theorem errorRate_exceeds_one_with_unlabeled_doc :
    0 < ([((0 : Nat), "x"), (1, "y")] : List (Nat × String)).length ∧
    0 < maxWeightedErrors [(0, "0")] ∧
    evaluate ["stub"] (fun _ _ => AdapterOutput.success "+")
      [(0, "x"), (1, "y")] [(0, "0")] =
      .ok ([("stub", 0)], [("stub", 3)]) ∧
    ¬((3 : ℚ) ≤ 1) := by
  refine ⟨by decide, by decide, ?_, by norm_num⟩
  have h1 : totalHits (fun _ _ => AdapterOutput.success "+")
      [(0, "x"), (1, "y")] [(0, "0")] "stub" = 0 := by decide
  have h2 : totalErrors (fun _ _ => AdapterOutput.success "+")
      [(0, "x"), (1, "y")] [(0, "0")] "stub" = 3 := by decide
  have h3 : maxWeightedErrors [(0, "0")] = 1 := by decide
  simp [evaluate, h1, h2, h3]

/-- C2 (amended): for a non-degenerate input in which additionally every
document carries a gold label (the text map and the key map hold the same
distinct ids), every registered analyzer's finalized accuracy and error rate
lie in `[0,1]`. -/
theorem accuracy_errorRate_mem_unitInterval
    (analyzers : List String) (run : String → String → AdapterOutput)
    (docs keys : List (Nat × String)) (a : String)
    (acc er : List (String × ℚ)) (x y : ℚ)
    (hlab : docs.map Prod.fst = keys.map Prod.fst)
    (hnd : (docs.map Prod.fst).Nodup)
    (hlen : docs.length ≠ 0)
    (hmax : maxWeightedErrors keys ≠ 0)
    (hev : evaluate analyzers run docs keys = .ok (acc, er))
    (hx : acc.lookup a = some x) (hy : er.lookup a = some y) :
    0 ≤ x ∧ x ≤ 1 ∧ 0 ≤ y ∧ y ≤ 1 := by
  unfold evaluate at hev
  rw [if_pos (Or.inr ⟨hlen, hmax⟩), Except.ok.injEq, Prod.mk.injEq] at hev
  obtain ⟨hacc, her⟩ := hev
  rw [← hacc] at hx
  rw [← her] at hy
  have hx' := eq_of_lookup_map_pair _ analyzers a x hx
  have hy' := eq_of_lookup_map_pair _ analyzers a y hy
  subst hx'
  subst hy'
  have hlen0 : (0 : ℚ) < (docs.length : ℚ) := by
    exact_mod_cast Nat.pos_of_ne_zero hlen
  have hmax0 : (0 : ℚ) < (maxWeightedErrors keys : ℚ) := by
    exact_mod_cast Nat.pos_of_ne_zero hmax
  refine ⟨div_nonneg (Nat.cast_nonneg _) hlen0.le, ?_,
          div_nonneg (Nat.cast_nonneg _) hmax0.le, ?_⟩
  · rw [div_le_one hlen0]
    exact_mod_cast totalHits_le_length run docs keys a
  · rw [div_le_one hmax0]
    exact_mod_cast totalErrors_le_maxWeightedErrors run docs keys a hlab hnd

/-- Witness for `accuracy_errorRate_mem_unitInterval` at a one-document
fully labeled corpus on which the analyzer scores a hit. -/
theorem accuracy_errorRate_mem_unitInterval_witness :
    ([((0 : Nat), "t")].map Prod.fst = [((0 : Nat), "+")].map Prod.fst) ∧
    ([((0 : Nat), "t")] : List (Nat × String)).length ≠ 0 ∧
    (0 ≤ (1 : ℚ) ∧ (1 : ℚ) ≤ 1 ∧ 0 ≤ (0 : ℚ) ∧ (0 : ℚ) ≤ 1) :=
  ⟨rfl, by decide,
    accuracy_errorRate_mem_unitInterval ["stub"]
      (fun _ _ => AdapterOutput.success "+") [(0, "t")] [(0, "+")] "stub"
      [("stub", 1)] [("stub", 0)] 1 0 rfl (by decide) (by decide) (by decide)
      (by
        have h1 : totalHits (fun _ _ => AdapterOutput.success "+")
            [(0, "t")] [(0, "+")] "stub" = 1 := by decide
        have h2 : totalErrors (fun _ _ => AdapterOutput.success "+")
            [(0, "t")] [(0, "+")] "stub" = 0 := by decide
        have h3 : maxWeightedErrors [(0, "+")] = 2 := by decide
        simp [evaluate, h1, h2, h3])
      (by simp [List.lookup]) (by simp [List.lookup])⟩

/-- C6: whenever `evaluate` returns, the accuracy recorded for a registered
analyzer is its total hit count divided by the number of documents in
`doc_id2text`, and that denominator equals the number of emitted output rows
(every document gets a row, labeled or not, errors included). -/
theorem accuracy_eq_hits_div_docCount
    (analyzers : List String) (run : String → String → AdapterOutput)
    (docs keys : List (Nat × String)) (a : String)
    (acc er : List (String × ℚ))
    (ha : a ∈ analyzers)
    (hev : evaluate analyzers run docs keys = .ok (acc, er)) :
    acc.lookup a =
      some ((totalHits run docs keys a : ℚ) / (docs.length : ℚ)) ∧
    (outputRows analyzers run docs keys).length = docs.length := by
  constructor
  · unfold evaluate at hev
    split at hev
    · rw [Except.ok.injEq, Prod.mk.injEq] at hev
      rw [← hev.1]
      exact lookup_map_pair _ analyzers a ha
    · exact absurd hev (by simp)
  · unfold outputRows
    rw [List.length_map]
    exact (sortedDocs_perm docs).length_eq

/-- Witness for `accuracy_eq_hits_div_docCount` at a concrete one-document
run. -/
theorem accuracy_eq_hits_div_docCount_witness :
    ("stub" : String) ∈ ["stub"] ∧
    (([("stub", (1 : ℚ))] : List (String × ℚ)).lookup "stub" =
      some ((totalHits (fun _ _ => AdapterOutput.success "+")
        [(0, "t")] [(0, "+")] "stub" : ℚ) /
        (([((0 : Nat), "t")] : List (Nat × String)).length : ℚ)) ∧
     (outputRows ["stub"] (fun _ _ => AdapterOutput.success "+")
        [(0, "t")] [(0, "+")]).length =
       ([((0 : Nat), "t")] : List (Nat × String)).length) :=
  ⟨by decide,
    accuracy_eq_hits_div_docCount ["stub"]
      (fun _ _ => AdapterOutput.success "+") [(0, "t")] [(0, "+")] "stub"
      [("stub", 1)] [("stub", 0)] (by decide)
      (by
        have h1 : totalHits (fun _ _ => AdapterOutput.success "+")
            [(0, "t")] [(0, "+")] "stub" = 1 := by decide
        have h2 : totalErrors (fun _ _ => AdapterOutput.success "+")
            [(0, "t")] [(0, "+")] "stub" = 0 := by decide
        have h3 : maxWeightedErrors [(0, "+")] = 2 := by decide
        simp [evaluate, h1, h2, h3])⟩

/-- C7: whenever `evaluate` returns, the error rate recorded for a
registered analyzer is its total weighted-error sum divided by
`get_max_weighted_errors`, and the latter sums, over exactly the entries of
`doc_id2key` (the documents that have a gold label), 1 for a neutral gold
label and 2 for any other. -/
theorem errorRate_eq_weightedErrors_div_max
    (analyzers : List String) (run : String → String → AdapterOutput)
    (docs keys : List (Nat × String)) (a : String)
    (acc er : List (String × ℚ))
    (ha : a ∈ analyzers)
    (hev : evaluate analyzers run docs keys = .ok (acc, er)) :
    er.lookup a =
      some ((totalErrors run docs keys a : ℚ) / (maxWeightedErrors keys : ℚ)) ∧
    maxWeightedErrors keys =
      (keys.map (fun p => if p.2 = "0" then 1 else 2)).sum := by
  constructor
  · unfold evaluate at hev
    split at hev
    · rw [Except.ok.injEq, Prod.mk.injEq] at hev
      rw [← hev.2]
      exact lookup_map_pair _ analyzers a ha
    · exact absurd hev (by simp)
  · simp [maxWeightedErrors, keyWeight]

/-- Witness for `errorRate_eq_weightedErrors_div_max` at a concrete
one-document run. -/
theorem errorRate_eq_weightedErrors_div_max_witness :
    ("stub" : String) ∈ ["stub"] ∧
    (([("stub", (0 : ℚ))] : List (String × ℚ)).lookup "stub" =
      some ((totalErrors (fun _ _ => AdapterOutput.success "+")
        [(0, "t")] [(0, "+")] "stub" : ℚ) /
        (maxWeightedErrors [(0, "+")] : ℚ)) ∧
     maxWeightedErrors [((0 : Nat), "+")] =
      ([((0 : Nat), "+")].map
        (fun p => if p.2 = "0" then 1 else 2)).sum) :=
  ⟨by decide,
    errorRate_eq_weightedErrors_div_max ["stub"]
      (fun _ _ => AdapterOutput.success "+") [(0, "t")] [(0, "+")] "stub"
      [("stub", 1)] [("stub", 0)] (by decide)
      (by
        have h1 : totalHits (fun _ _ => AdapterOutput.success "+")
            [(0, "t")] [(0, "+")] "stub" = 1 := by decide
        have h2 : totalErrors (fun _ _ => AdapterOutput.success "+")
            [(0, "t")] [(0, "+")] "stub" = 0 := by decide
        have h3 : maxWeightedErrors [(0, "+")] = 2 := by decide
        simp [evaluate, h1, h2, h3])⟩

/-- The document loop iterates `doc_id2text` in ascending document-id
order. -/
lemma sortedDocs_sorted (docs : List (Nat × String)) :
    List.Pairwise (fun p q : Nat × String => p.1 ≤ q.1) (sortedDocs docs) := by
  haveI : IsTotal (Nat × String) (fun p q => p.1 ≤ q.1) :=
    ⟨fun p q => Nat.le_total p.1 q.1⟩
  haveI : IsTrans (Nat × String) (fun p q => p.1 ≤ q.1) :=
    ⟨fun _ _ _ h1 h2 => Nat.le_trans h1 h2⟩
  unfold sortedDocs
  exact List.sorted_insertionSort _ _

/-- C9: with distinct document ids (a dictionary invariant of
`doc_id2text`), the emitted rows are in strictly ascending document-id
order, and each row's result cells are the analyzers' cells in registration
order, one per registered analyzer. -/
theorem rows_sorted_and_cells_in_adapter_order
    (analyzers : List String) (run : String → String → AdapterOutput)
    (docs keys : List (Nat × String))
    (hnd : (docs.map Prod.fst).Nodup) :
    List.Pairwise (fun r s : Row => r.docId < s.docId)
      (outputRows analyzers run docs keys) ∧
    ∀ r ∈ outputRows analyzers run docs keys,
      r.cells = analyzers.map (fun a => outputCell (run a r.text)) := by
  constructor
  · unfold outputRows
    rw [List.pairwise_map]
    have hle := sortedDocs_sorted docs
    have hne : List.Pairwise (fun p q : Nat × String => p.1 ≠ q.1)
        (sortedDocs docs) := by
      have hnd' : ((sortedDocs docs).map Prod.fst).Nodup :=
        hnd.perm ((sortedDocs_perm docs).map Prod.fst).symm
      exact List.pairwise_map.mp hnd'
    exact (hle.and hne).imp (fun h => Nat.lt_of_le_of_ne h.1 h.2)
  · intro r hr
    unfold outputRows at hr
    obtain ⟨d, -, rfl⟩ := List.mem_map.mp hr
    rfl

/-- Witness for `rows_sorted_and_cells_in_adapter_order` on a two-document
corpus given in descending id order. -/
theorem rows_sorted_and_cells_in_adapter_order_witness :
    (([((1 : Nat), "b"), (0, "a")] : List (Nat × String)).map Prod.fst).Nodup ∧
    (List.Pairwise (fun r s : Row => r.docId < s.docId)
      (outputRows ["s1", "s2"] (fun _ _ => AdapterOutput.failure)
        [(1, "b"), (0, "a")] []) ∧
     ∀ r ∈ outputRows ["s1", "s2"] (fun _ _ => AdapterOutput.failure)
        [(1, "b"), (0, "a")] [],
       r.cells = ["s1", "s2"].map (fun _ => outputCell .failure)) :=
  ⟨by decide,
    rows_sorted_and_cells_in_adapter_order ["s1", "s2"]
      (fun _ _ => AdapterOutput.failure) [(1, "b"), (0, "a")] [] (by decide)⟩

/-- `line.split('\t')` produces one more part than the line has tab
characters, so a two-part split means exactly one tab. -/
lemma splitTabList_length (cs : List Char) :
    (splitTabList cs).length = cs.count '\t' + 1 := by
  induction cs with
  | nil => simp [splitTabList]
  | cons c cs ih =>
    by_cases h : c = '\t'
    · subst h
      simp [splitTabList, ih, List.count_cons]
    · rw [List.count_cons]
      cases hs : splitTabList cs with
      | nil => rw [hs] at ih; simp at ih
      | cons p ps =>
        rw [hs] at ih
        simp only [splitTabList, if_neg h, hs, List.length_cons] at ih ⊢
        simp [h, ih]

/-- C10: corpus parsing does not validate gold labels.  Any non-blank line
that splits into exactly two parts at a tab (equivalently, contains exactly
one tab) stores the stripped text after the tab as the document's gold
label — whatever string it is, the empty string included — and
`get_max_weighted_errors` counts any label other than `'0'` with weight
2. -/
theorem gold_label_not_validated (line doc key : String)
    (hsplit : pySplitTab line = [doc, key]) (hnb : pyStrip line ≠ "") :
    readEvaluationData [line] = ([(0, pyStrip doc)], [(0, pyStrip key)]) ∧
    line.toList.count '\t' = 1 ∧
    (pyStrip key ≠ "0" → maxWeightedErrors [(0, pyStrip key)] = 2) := by
  refine ⟨?_, ?_, ?_⟩
  · have hp : parseLine line = some (pyStrip doc, some (pyStrip key)) := by
      unfold parseLine
      rw [if_neg hnb, hsplit]
    simp [readEvaluationData, hp]
  · have hlen : (splitTabList line.toList).length = 2 := by
      have := congrArg List.length hsplit
      simpa [pySplitTab] using this
    have := splitTabList_length line.toList
    omega
  · intro h
    simp [maxWeightedErrors, keyWeight, h]

/-- Witness for `gold_label_not_validated` on a line whose label is the
out-of-vocabulary string `bogus`. -/
theorem gold_label_not_validated_witness :
    pySplitTab "hello\tbogus" = ["hello", "bogus"] ∧
    pyStrip "hello\tbogus" ≠ "" ∧
    (readEvaluationData ["hello\tbogus"] =
      ([(0, pyStrip "hello")], [(0, pyStrip "bogus")]) ∧
     ("hello\tbogus" : String).toList.count '\t' = 1 ∧
     (pyStrip "bogus" ≠ "0" → maxWeightedErrors [(0, pyStrip "bogus")] = 2)) :=
  ⟨by decide, by decide,
    gold_label_not_validated "hello\tbogus" "hello" "bogus"
      (by decide) (by decide)⟩

end SentimentEval
